import Mathlib

/-!
Shallow embedding of the visitor-pass middleware pipeline
(`src/visitors/middleware.py`, `src/visitors/settings.py`).

The pipeline is three Django middlewares run in order on each request:
`VisitorRequestMiddleware` (token extraction), `VisitorSessionMiddleware`
(session synchronisation), `VisitorCountMiddleware` (usage limiting).
Each middleware mutates the request / database / session state and then
delegates; with the innermost view returning the request unchanged, the
state after the request equals the composition of the three per-stage
state transformers.

The `Visitor` model (`models.py`) and the session helpers (`session.py`)
are not under `src/`; those definitions are modelled from the spec and
marked as such in their doc comments.
-/

/-- The `Visitor` entity: identifier (`uuid`, embedded as a natural
number standing for the opaque token), activity flag, usage counter,
per-visitor usage ceiling, and creation timestamp (seconds). -/
structure Visitor where
  uuid : Nat
  is_active : Bool
  usage_count : Nat
  max_usages_allowed : Nat
  created_at : Nat
deriving DecidableEq, Repr

/-- `VISITOR_TOKEN_EXPIRY` from `settings.py`: token time-to-live in
seconds from creation (default 300). -/
def VISITOR_TOKEN_EXPIRY : Nat := 300

/-- `DEFAULT_MAX_LINK_USAGES_ALLOWED` from `settings.py` (default 10). -/
def DEFAULT_MAX_LINK_USAGES_ALLOWED : Nat := 10

/-- Modelled from the spec: the validity predicate of `Visitor.validate`
in the absent `models.py` (spec §3): a visitor is valid at time `now`
iff `is_active` is true and `now - created_at` is within the configured
token expiry window. -/
def Visitor.is_valid (v : Visitor) (now : Nat) : Bool :=
  v.is_active && (now - v.created_at ≤ VISITOR_TOKEN_EXPIRY)

/-- Modelled from the spec: `Visitor.deactivate` from the absent
`models.py` — permanent revocation sets `is_active` to false. -/
def Visitor.deactivate (v : Visitor) : Visitor :=
  { v with is_active := false }

/-- The persisted visitor table. `Visitor.objects.get(uuid=u)` is the
first entry with the matching identifier. -/
def dbGet (db : List Visitor) (u : Nat) : Option Visitor :=
  db.find? (fun v => v.uuid == u)

/-- `Visitor.objects.get(uuid=u, is_active=True)`: first entry matching
the identifier that is also active. -/
def dbGetActive (db : List Visitor) (u : Nat) : Option Visitor :=
  db.find? (fun v => v.uuid == u && v.is_active)

/-- `visitor.save()`: persist the entity, replacing the stored row(s)
with the same identifier. -/
def dbSave (db : List Visitor) (v : Visitor) : List Visitor :=
  db.map (fun w => if w.uuid == v.uuid then v else w)

/-- Per-request pipeline state: the querystring token (`vuid`
parameter), the session entry under `VISITOR_SESSION_KEY`, the visitor
table, and the request-scoped context (`request.visitor` and
`request.user.is_visitor`). -/
structure ReqState where
  token : Option Nat
  sessionVal : Option Nat
  db : List Visitor
  visitor : Option Visitor
  is_visitor : Bool
deriving DecidableEq, Repr

/-- Modelled from the spec: `Visitor.validate` from the absent
`models.py` (spec §3, §4.1, §7). Checking validity at `now`; an
invalid-but-existing visitor is marked permanently deactivated and the
deactivation persisted (best-effort), and access is denied. Returns
whether the visitor is valid together with the updated table. -/
def Visitor.validate (v : Visitor) (now : Nat) (db : List Visitor) :
    Bool × List Visitor :=
  if v.is_valid now then (true, db) else (false, dbSave db v.deactivate)

/-- Modelled from the spec: `session.stash_visitor_uuid` from the
absent `session.py` — writes `request.visitor`'s identifier into the
session under the fixed key. -/
def stash_visitor_uuid (s : ReqState) (u : Nat) : ReqState :=
  { s with sessionVal := some u }

/-- Modelled from the spec: `session.get_visitor_uuid` from the absent
`session.py` — reads the session entry under the fixed key. -/
def get_visitor_uuid (s : ReqState) : Option Nat :=
  s.sessionVal

/-- Modelled from the spec: `session.clear_visitor_uuid` from the
absent `session.py` — deletes the session entry under the fixed key. -/
def clear_visitor_uuid (s : ReqState) : ReqState :=
  { s with sessionVal := none }

/-- `VisitorRequestMiddleware.__call__`: clear the request context,
read the token from the querystring; if absent pass through; otherwise
resolve and validate, granting visitor context only on success. An
unknown or invalid token passes through silently. -/
def VisitorRequestMiddleware (now : Nat) (s : ReqState) : ReqState :=
  let s := { s with visitor := none, is_visitor := false }
  match s.token with
  | none => s
  | some u =>
    match dbGet s.db u with
    | none => s
    | some v =>
      match v.validate now s.db with
      | (true, db) => { s with db := db, visitor := some v, is_visitor := true }
      | (false, db) => { s with db := db }

/-- `VisitorSessionMiddleware.__call__`: if the request already carries
a visitor, stash its identifier in the session; otherwise try to
rehydrate the context from the session entry, restricted to active
visitors, clearing a dangling session entry. -/
def VisitorSessionMiddleware (s : ReqState) : ReqState :=
  match s.visitor with
  | some v => stash_visitor_uuid s v.uuid
  | none =>
    match get_visitor_uuid s with
    | none => s
    | some u =>
      match dbGetActive s.db u with
      | none => clear_visitor_uuid s
      | some v => { s with visitor := some v, is_visitor := true }

/-- `VisitorCountMiddleware.__call__`: if the request carries a
visitor, increment its usage counter and persist; if the counter now
exceeds the ceiling, deactivate, persist again, and clear the
principal's visitor flag (the context keeps referencing the mutated
entity, as the Python object is mutated in place). -/
def VisitorCountMiddleware (s : ReqState) : ReqState :=
  match s.visitor with
  | none => s
  | some v =>
    let v1 := { v with usage_count := v.usage_count + 1 }
    let db1 := dbSave s.db v1
    if v1.max_usages_allowed < v1.usage_count then
      let v2 := { v1 with is_active := false }
      { s with db := dbSave db1 v2, visitor := some v2, is_visitor := false }
    else
      { s with db := db1, visitor := some v1 }

/-- Cross-request durable state: the visitor table and the browser
session's entry under the fixed key. -/
structure World where
  db : List Visitor
  sessionVal : Option Nat
deriving DecidableEq, Repr

/-- A fresh request against a world: the token from the URL, the
session carried by the browser, context not yet set (Django request
objects start without `visitor` / `is_visitor`; the first middleware
initialises both). -/
def mkReq (w : World) (tok : Option Nat) : ReqState :=
  ⟨tok, w.sessionVal, w.db, none, false⟩

/-- One full request: the three middlewares in their configured order. -/
def runRequest (now : Nat) (w : World) (tok : Option Nat) : ReqState :=
  VisitorCountMiddleware (VisitorSessionMiddleware
    (VisitorRequestMiddleware now (mkReq w tok)))

/-- The durable state left behind by a finished request. -/
def worldAfter (s : ReqState) : World :=
  ⟨s.db, s.sessionVal⟩

/-- Iterate `n` requests with the same clock and token, threading the
durable state. -/
def iterWorld (now : Nat) (tok : Option Nat) : Nat → World → World
  | 0, w => w
  | n + 1, w => iterWorld now tok n (worldAfter (runRequest now w tok))

/-! ## Database lemmas -/

lemma dbGet_mem_uuid {db : List Visitor} {u : Nat} {v : Visitor}
    (h : dbGet db u = some v) : v.uuid = u := by
  have := List.find?_some h
  simpa using this

lemma dbGet_save {db : List Visitor} {u : Nat} {v : Visitor}
    (h : dbGet db u = some v) (v' : Visitor) (huuid : v'.uuid = v.uuid) :
    dbGet (dbSave db v') u = some v' := by
  have hv : v.uuid = u := dbGet_mem_uuid h
  induction db with
  | nil => simp [dbGet] at h
  | cons a l ih =>
    unfold dbGet at h
    unfold dbGet dbSave at ih ⊢
    rw [List.map_cons]
    by_cases ha : a.uuid = u
    · rw [List.find?_cons_of_pos _ (by simp [ha])] at h
      obtain rfl := Option.some.inj h
      have hfa : (if a.uuid == v'.uuid then v' else a) = v' := by
        simp [ha, huuid ▸ hv]
      rw [hfa, List.find?_cons_of_pos _ (by simp [huuid, hv])]
    · rw [List.find?_cons_of_neg _ (by simp [ha])] at h
      have hfa : (if a.uuid == v'.uuid then v' else a) = a := by
        simp [huuid, hv, ha]
      rw [hfa, List.find?_cons_of_neg _ (by simp [ha])]
      exact ih h

lemma dbGetActive_save {db : List Visitor} {u : Nat} {v : Visitor}
    (h : dbGet db u = some v) (v' : Visitor) (huuid : v'.uuid = v.uuid)
    (hact : v'.is_active = true) :
    dbGetActive (dbSave db v') u = some v' := by
  have hv : v.uuid = u := dbGet_mem_uuid h
  induction db with
  | nil => simp [dbGet] at h
  | cons a l ih =>
    unfold dbGet at h
    unfold dbGet at ih
    unfold dbGetActive dbSave at ih ⊢
    rw [List.map_cons]
    by_cases ha : a.uuid = u
    · rw [List.find?_cons_of_pos _ (by simp [ha])] at h
      obtain rfl := Option.some.inj h
      have hfa : (if a.uuid == v'.uuid then v' else a) = v' := by
        simp [ha, huuid ▸ hv]
      rw [hfa, List.find?_cons_of_pos _ (by simp [huuid, hv, hact])]
    · rw [List.find?_cons_of_neg _ (by simp [ha])] at h
      have hfa : (if a.uuid == v'.uuid then v' else a) = a := by
        simp [huuid, hv, ha]
      rw [hfa, List.find?_cons_of_neg _ (by simp [ha])]
      exact ih h

lemma mem_dbSave {db : List Visitor} {v w : Visitor}
    (h : w ∈ dbSave db v) : w = v ∨ w ∈ db := by
  obtain ⟨a, ha, hw⟩ := List.mem_map.mp h
  by_cases hc : a.uuid = v.uuid
  · left; simp [hc] at hw; exact hw.symm
  · right; simp [hc] at hw; exact hw ▸ ha

/-! ## Claim theorems -/

/-- The visitor of the concrete usage-limiting scenario:
`usage_count = 0`, `max_usages_allowed = 10`, active, created at 0. -/
def c1_visitor : Visitor := ⟨1, true, 0, 10, 0⟩

/-- C1: for a visitor created with `usage_count = 0` and
`max_usages_allowed = 10`, each of the first 10 requests ends with the
visitor flag true and `usage_count` reaching 10; the 11th request makes
`usage_count = 11`, persists `is_active = false`, and ends with the
flag false; a 12th request, whether via token or via session, yields
non-visitor status and `is_active` stays false. -/
theorem c1_usage_limit_scenario :
    ((List.range 10).all fun k =>
      (runRequest 0 (iterWorld 0 (some 1) k ⟨[c1_visitor], none⟩)
        (some 1)).is_visitor) = true
    ∧ dbGet (iterWorld 0 (some 1) 10 ⟨[c1_visitor], none⟩).db 1 =
        some ⟨1, true, 10, 10, 0⟩
    ∧ (runRequest 0 (iterWorld 0 (some 1) 10 ⟨[c1_visitor], none⟩)
        (some 1)).is_visitor = false
    ∧ dbGet (runRequest 0 (iterWorld 0 (some 1) 10 ⟨[c1_visitor], none⟩)
        (some 1)).db 1 = some ⟨1, false, 11, 10, 0⟩
    ∧ (runRequest 0 (iterWorld 0 (some 1) 11 ⟨[c1_visitor], none⟩)
        (some 1)).is_visitor = false
    ∧ dbGet (runRequest 0 (iterWorld 0 (some 1) 11 ⟨[c1_visitor], none⟩)
        (some 1)).db 1 = some ⟨1, false, 11, 10, 0⟩
    ∧ (runRequest 0 (iterWorld 0 (some 1) 11 ⟨[c1_visitor], none⟩)
        none).is_visitor = false
    ∧ dbGet (runRequest 0 (iterWorld 0 (some 1) 11 ⟨[c1_visitor], none⟩)
        none).db 1 = some ⟨1, false, 11, 10, 0⟩ := by decide

/-- C9: a request with no token and no session entry performs no
persistence write and comes back unmodified except that the visitor
context is null and the principal's visitor flag is false. -/
theorem c9_non_visitor_passthrough (now : Nat) (db : List Visitor) :
    runRequest now ⟨db, none⟩ none = ⟨none, none, db, none, false⟩ := rfl

/-- C10: when the usage limiter trips the limit it clears only the
principal's visitor flag; the request-scoped context still references
the now-deactivated visitor entity, so flag and context diverge. -/
theorem c10_limit_trip_clears_only_flag (s : ReqState) (v : Visitor)
    (h1 : s.visitor = some v)
    (h2 : v.max_usages_allowed < v.usage_count + 1) :
    (VisitorCountMiddleware s).is_visitor = false ∧
    (VisitorCountMiddleware s).visitor =
      some { v with usage_count := v.usage_count + 1, is_active := false } := by
  unfold VisitorCountMiddleware
  rw [h1]
  simp [h2]

/-- Witness for C10 at a concrete tripping request. -/
theorem c10_witness :
    (⟨some 1, none, [⟨1, true, 10, 10, 0⟩], some ⟨1, true, 10, 10, 0⟩, true⟩ :
      ReqState).visitor = some ⟨1, true, 10, 10, 0⟩ ∧
    (10 : Nat) < 10 + 1 ∧
    ((VisitorCountMiddleware
        ⟨some 1, none, [⟨1, true, 10, 10, 0⟩], some ⟨1, true, 10, 10, 0⟩, true⟩).is_visitor = false ∧
      (VisitorCountMiddleware
        ⟨some 1, none, [⟨1, true, 10, 10, 0⟩], some ⟨1, true, 10, 10, 0⟩, true⟩).visitor =
        some ⟨1, false, 11, 10, 0⟩) :=
  ⟨by decide, by decide,
    c10_limit_trip_clears_only_flag _ _ rfl (by decide)⟩

/-- C7: presenting the identifier of an active, non-expired visitor as
the token makes the token extractor set the principal's visitor flag
true and the request-scoped context equal to that visitor entity. -/
theorem c7_valid_token_grants (now : Nat) (s : ReqState) (v : Visitor)
    (htok : s.token = some v.uuid)
    (hget : dbGet s.db v.uuid = some v)
    (hact : v.is_active = true)
    (hexp : now - v.created_at ≤ VISITOR_TOKEN_EXPIRY) :
    (VisitorRequestMiddleware now s).visitor = some v ∧
    (VisitorRequestMiddleware now s).is_visitor = true := by
  have hval : v.is_valid now = true := by
    simp [Visitor.is_valid, hact, hexp]
  simp [VisitorRequestMiddleware, htok, hget, Visitor.validate, hval]

/-- Witness for C7 at a concrete fresh visitor. -/
theorem c7_witness :
    (⟨some 1, none, [⟨1, true, 0, 10, 0⟩], none, false⟩ : ReqState).token = some 1 ∧
    dbGet [⟨1, true, 0, 10, 0⟩] 1 = some ⟨1, true, 0, 10, 0⟩ ∧
    ((VisitorRequestMiddleware 5
        ⟨some 1, none, [⟨1, true, 0, 10, 0⟩], none, false⟩).visitor =
      some ⟨1, true, 0, 10, 0⟩ ∧
      (VisitorRequestMiddleware 5
        ⟨some 1, none, [⟨1, true, 0, 10, 0⟩], none, false⟩).is_visitor = true) :=
  ⟨by decide, by decide,
    c7_valid_token_grants 5 _ ⟨1, true, 0, 10, 0⟩ rfl (by decide) rfl (by decide)⟩

/-- C8: a request whose token is absent, and a request whose token
matches no stored visitor, both pass through silently: the token
extractor leaves the visitor flag false, the context null, and the
database and session untouched; for the unknown token the whole
pipeline (with an empty session) does the same. -/
theorem c8_absent_or_unknown_token (now : Nat) (s : ReqState) (u : Nat)
    (db : List Visitor) (sv : Option Nat)
    (hnone : s.token = none)
    (hunknown : dbGet db u = none) :
    VisitorRequestMiddleware now s =
      { s with visitor := none, is_visitor := false } ∧
    VisitorRequestMiddleware now ⟨some u, sv, db, s.visitor, s.is_visitor⟩ =
      ⟨some u, sv, db, none, false⟩ ∧
    runRequest now ⟨db, none⟩ (some u) = ⟨some u, none, db, none, false⟩ := by
  refine ⟨?_, ?_, ?_⟩
  · unfold VisitorRequestMiddleware
    rw [show ({ s with visitor := none, is_visitor := false } : ReqState).token
      = s.token from rfl, hnone]
  · simp [VisitorRequestMiddleware, hunknown]
  · simp [runRequest, mkReq, VisitorRequestMiddleware,
      VisitorSessionMiddleware, VisitorCountMiddleware, get_visitor_uuid,
      hunknown]

/-- Witness for C8 at a concrete tokenless request and unknown token. -/
theorem c8_witness :
    (⟨none, none, [⟨1, true, 0, 10, 0⟩], none, false⟩ : ReqState).token = none ∧
    dbGet [⟨1, true, 0, 10, 0⟩] 2 = none ∧
    (VisitorRequestMiddleware 0 ⟨none, none, [⟨1, true, 0, 10, 0⟩], none, false⟩ =
      ⟨none, none, [⟨1, true, 0, 10, 0⟩], none, false⟩ ∧
    VisitorRequestMiddleware 0 ⟨some 2, none, [⟨1, true, 0, 10, 0⟩], none, false⟩ =
      ⟨some 2, none, [⟨1, true, 0, 10, 0⟩], none, false⟩ ∧
    runRequest 0 ⟨[⟨1, true, 0, 10, 0⟩], none⟩ (some 2) =
      ⟨some 2, none, [⟨1, true, 0, 10, 0⟩], none, false⟩) :=
  ⟨rfl, by decide,
    c8_absent_or_unknown_token 0
      ⟨none, none, [⟨1, true, 0, 10, 0⟩], none, false⟩ 2
      [⟨1, true, 0, 10, 0⟩] none rfl (by decide)⟩

/-- C5: a request with no token whose session holds an identifier that
resolves to no active visitor clears the identifier from the session,
completes as a non-visitor with null context, and leaves the database
untouched; a subsequent request with the cleared session and no token
also completes as a non-visitor. -/
theorem c5_self_healing (now now2 : Nat) (db : List Visitor) (u : Nat)
    (h : dbGetActive db u = none) :
    runRequest now ⟨db, some u⟩ none = ⟨none, none, db, none, false⟩ ∧
    runRequest now2 ⟨db, none⟩ none = ⟨none, none, db, none, false⟩ := by
  constructor
  · simp [runRequest, mkReq, VisitorRequestMiddleware,
      VisitorSessionMiddleware, VisitorCountMiddleware, get_visitor_uuid,
      clear_visitor_uuid, h]
  · rfl

/-- Witness for C5: a session entry pointing at a deactivated visitor. -/
theorem c5_witness :
    dbGetActive [⟨1, false, 11, 10, 0⟩] 1 = none ∧
    (runRequest 0 ⟨[⟨1, false, 11, 10, 0⟩], some 1⟩ none =
      ⟨none, none, [⟨1, false, 11, 10, 0⟩], none, false⟩ ∧
    runRequest 7 ⟨[⟨1, false, 11, 10, 0⟩], none⟩ none =
      ⟨none, none, [⟨1, false, 11, 10, 0⟩], none, false⟩) :=
  ⟨by decide, c5_self_healing 0 7 [⟨1, false, 11, 10, 0⟩] 1 (by decide)⟩

/-- C2: a token resolving to an existing visitor that fails the
validity predicate causes the pipeline to persist `is_active = false`
for that visitor, to pass the request through with the context cleared
and the visitor flag false, and a later presentation of the same token
at any clock still yields the flag false. -/
theorem c2_invalid_token_deactivates (now : Nat) (db : List Visitor)
    (u : Nat) (v : Visitor)
    (hget : dbGet db u = some v)
    (hinvalid : v.is_valid now = false) :
    (runRequest now ⟨db, none⟩ (some u)).is_visitor = false ∧
    (runRequest now ⟨db, none⟩ (some u)).visitor = none ∧
    dbGet (runRequest now ⟨db, none⟩ (some u)).db u = some v.deactivate ∧
    v.deactivate.is_active = false ∧
    ∀ now2, (runRequest now2
      ⟨(runRequest now ⟨db, none⟩ (some u)).db,
       (runRequest now ⟨db, none⟩ (some u)).sessionVal⟩
      (some u)).is_visitor = false := by
  have hr : runRequest now ⟨db, none⟩ (some u) =
      ⟨some u, none, dbSave db v.deactivate, none, false⟩ := by
    simp [runRequest, mkReq, VisitorRequestMiddleware,
      VisitorSessionMiddleware, VisitorCountMiddleware, get_visitor_uuid,
      Visitor.validate, hget, hinvalid]
  have hget2 : dbGet (dbSave db v.deactivate) u = some v.deactivate :=
    dbGet_save hget v.deactivate rfl
  have hinv2 : ∀ now2, (v.deactivate).is_valid now2 = false := by
    intro now2
    simp [Visitor.is_valid, Visitor.deactivate]
  refine ⟨by rw [hr], by rw [hr], by rw [hr]; exact hget2, rfl, ?_⟩
  intro now2
  rw [hr]
  simp [runRequest, mkReq, VisitorRequestMiddleware,
    VisitorSessionMiddleware, VisitorCountMiddleware, get_visitor_uuid,
    Visitor.validate, hget2, hinv2]

/-- Witness for C2: an expired active visitor presented at time 400. -/
theorem c2_witness :
    dbGet [⟨1, true, 0, 10, 0⟩] 1 = some ⟨1, true, 0, 10, 0⟩ ∧
    Visitor.is_valid ⟨1, true, 0, 10, 0⟩ 400 = false ∧
    ((runRequest 400 ⟨[⟨1, true, 0, 10, 0⟩], none⟩ (some 1)).is_visitor = false ∧
    (runRequest 400 ⟨[⟨1, true, 0, 10, 0⟩], none⟩ (some 1)).visitor = none ∧
    dbGet (runRequest 400 ⟨[⟨1, true, 0, 10, 0⟩], none⟩ (some 1)).db 1 =
      some (Visitor.deactivate ⟨1, true, 0, 10, 0⟩) ∧
    (Visitor.deactivate ⟨1, true, 0, 10, 0⟩).is_active = false ∧
    ∀ now2, (runRequest now2
      ⟨(runRequest 400 ⟨[⟨1, true, 0, 10, 0⟩], none⟩ (some 1)).db,
       (runRequest 400 ⟨[⟨1, true, 0, 10, 0⟩], none⟩ (some 1)).sessionVal⟩
      (some 1)).is_visitor = false) :=
  ⟨by decide, by decide,
    c2_invalid_token_deactivates 400 [⟨1, true, 0, 10, 0⟩] 1
      ⟨1, true, 0, 10, 0⟩ (by decide) (by decide)⟩

/-- Counterexample to C3 as stated: the token of the visitor
`⟨1, true, 10, 10, 0⟩` is valid at time 0 (active, unexpired), yet the
first request presenting it ends with the visitor flag false, because
the usage limiter trips the limit during that same request. -/
theorem c3_counterexample :
    Visitor.is_valid ⟨1, true, 10, 10, 0⟩ 0 = true ∧
    (runRequest 0 ⟨[⟨1, true, 10, 10, 0⟩], none⟩ (some 1)).is_visitor = false := by
  decide

/-- C3 (amended): provided the usage limit is not tripped during the
requests, presenting a valid token in two independent requests yields
the visitor flag true on each; after the first request the session
holds the visitor's identifier, re-stashing it on the second request
leaves the session value unchanged (idempotent), and a third request
with no token but the same session yields the flag true with context
equal to that visitor (usage count advanced by the three visits). -/
theorem c3_session_roundtrip_amended (now : Nat) (db : List Visitor)
    (v : Visitor)
    (hget : dbGet db v.uuid = some v)
    (hact : v.is_active = true)
    (hexp : now - v.created_at ≤ VISITOR_TOKEN_EXPIRY)
    (hroom : v.usage_count + 3 ≤ v.max_usages_allowed) :
    (runRequest now ⟨db, none⟩ (some v.uuid)).is_visitor = true ∧
    (runRequest now ⟨db, none⟩ (some v.uuid)).sessionVal = some v.uuid ∧
    (runRequest now
      ⟨(runRequest now ⟨db, none⟩ (some v.uuid)).db,
       (runRequest now ⟨db, none⟩ (some v.uuid)).sessionVal⟩
      (some v.uuid)).is_visitor = true ∧
    (runRequest now
      ⟨(runRequest now ⟨db, none⟩ (some v.uuid)).db,
       (runRequest now ⟨db, none⟩ (some v.uuid)).sessionVal⟩
      (some v.uuid)).sessionVal =
      (runRequest now ⟨db, none⟩ (some v.uuid)).sessionVal ∧
    (runRequest now
      ⟨(runRequest now
          ⟨(runRequest now ⟨db, none⟩ (some v.uuid)).db,
           (runRequest now ⟨db, none⟩ (some v.uuid)).sessionVal⟩
          (some v.uuid)).db,
       (runRequest now
          ⟨(runRequest now ⟨db, none⟩ (some v.uuid)).db,
           (runRequest now ⟨db, none⟩ (some v.uuid)).sessionVal⟩
          (some v.uuid)).sessionVal⟩
      none).is_visitor = true ∧
    (runRequest now
      ⟨(runRequest now
          ⟨(runRequest now ⟨db, none⟩ (some v.uuid)).db,
           (runRequest now ⟨db, none⟩ (some v.uuid)).sessionVal⟩
          (some v.uuid)).db,
       (runRequest now
          ⟨(runRequest now ⟨db, none⟩ (some v.uuid)).db,
           (runRequest now ⟨db, none⟩ (some v.uuid)).sessionVal⟩
          (some v.uuid)).sessionVal⟩
      none).visitor = some { v with usage_count := v.usage_count + 3 } := by
  have hval : v.is_valid now = true := by
    simp [Visitor.is_valid, hact, hexp]
  have htrip1 : ¬ (v.max_usages_allowed < v.usage_count + 1) := by omega
  have htrip2 : ¬ (v.max_usages_allowed < v.usage_count + 1 + 1) := by omega
  have htrip3 : ¬ (v.max_usages_allowed < v.usage_count + 1 + 1 + 1) := by
    omega
  have h1 : runRequest now ⟨db, none⟩ (some v.uuid) =
      ⟨some v.uuid, some v.uuid,
       dbSave db { v with usage_count := v.usage_count + 1 },
       some { v with usage_count := v.usage_count + 1 }, true⟩ := by
    simp [runRequest, mkReq, VisitorRequestMiddleware,
      VisitorSessionMiddleware, VisitorCountMiddleware, stash_visitor_uuid,
      Visitor.validate, hget, hval, htrip1]
  have hget2 : dbGet (dbSave db { v with usage_count := v.usage_count + 1 })
      v.uuid = some { v with usage_count := v.usage_count + 1 } :=
    dbGet_save hget _ rfl
  have hval2 : Visitor.is_valid
      { v with usage_count := v.usage_count + 1 } now = true := by
    simp [Visitor.is_valid, hact, hexp]
  have h2 : runRequest now
      ⟨dbSave db { v with usage_count := v.usage_count + 1 }, some v.uuid⟩
      (some v.uuid) =
      ⟨some v.uuid, some v.uuid,
       dbSave (dbSave db { v with usage_count := v.usage_count + 1 })
         { v with usage_count := v.usage_count + 1 + 1 },
       some { v with usage_count := v.usage_count + 1 + 1 }, true⟩ := by
    simp [runRequest, mkReq, VisitorRequestMiddleware,
      VisitorSessionMiddleware, VisitorCountMiddleware, stash_visitor_uuid,
      Visitor.validate, hget2, hval2, htrip2]
  have hgact : dbGetActive
      (dbSave (dbSave db { v with usage_count := v.usage_count + 1 })
        { v with usage_count := v.usage_count + 1 + 1 }) v.uuid =
      some { v with usage_count := v.usage_count + 1 + 1 } :=
    dbGetActive_save hget2 _ rfl hact
  have h3 : runRequest now
      ⟨dbSave (dbSave db { v with usage_count := v.usage_count + 1 })
        { v with usage_count := v.usage_count + 1 + 1 }, some v.uuid⟩
      none =
      ⟨none, some v.uuid,
       dbSave (dbSave (dbSave db { v with usage_count := v.usage_count + 1 })
         { v with usage_count := v.usage_count + 1 + 1 })
         { v with usage_count := v.usage_count + 1 + 1 + 1 },
       some { v with usage_count := v.usage_count + 1 + 1 + 1 }, true⟩ := by
    simp [runRequest, mkReq, VisitorRequestMiddleware,
      VisitorSessionMiddleware, VisitorCountMiddleware, get_visitor_uuid,
      hgact, htrip3]
  rw [h1]
  rw [show (⟨some v.uuid, some v.uuid,
      dbSave db { v with usage_count := v.usage_count + 1 },
      some { v with usage_count := v.usage_count + 1 }, true⟩ :
      ReqState).db = dbSave db { v with usage_count := v.usage_count + 1 }
      from rfl]
  rw [show (⟨some v.uuid, some v.uuid,
      dbSave db { v with usage_count := v.usage_count + 1 },
      some { v with usage_count := v.usage_count + 1 }, true⟩ :
      ReqState).sessionVal = some v.uuid from rfl]
  rw [h2]
  rw [show (⟨some v.uuid, some v.uuid,
      dbSave (dbSave db { v with usage_count := v.usage_count + 1 })
        { v with usage_count := v.usage_count + 1 + 1 },
      some { v with usage_count := v.usage_count + 1 + 1 }, true⟩ :
      ReqState).db =
      dbSave (dbSave db { v with usage_count := v.usage_count + 1 })
        { v with usage_count := v.usage_count + 1 + 1 } from rfl]
  rw [show (⟨some v.uuid, some v.uuid,
      dbSave (dbSave db { v with usage_count := v.usage_count + 1 })
        { v with usage_count := v.usage_count + 1 + 1 },
      some { v with usage_count := v.usage_count + 1 + 1 }, true⟩ :
      ReqState).sessionVal = some v.uuid from rfl]
  rw [h3]
  have hc : v.usage_count + 1 + 1 + 1 = v.usage_count + 3 := by omega
  rw [hc]
  exact ⟨rfl, rfl, rfl, rfl, rfl, rfl⟩

/-- Witness for C3 (amended) at a concrete fresh visitor. -/
theorem c3_witness :
    dbGet [⟨1, true, 0, 10, 0⟩] 1 = some ⟨1, true, 0, 10, 0⟩ ∧
    (0 : Nat) + 3 ≤ 10 ∧
    ((runRequest 2 ⟨[⟨1, true, 0, 10, 0⟩], none⟩ (some 1)).is_visitor = true ∧
    (runRequest 2 ⟨[⟨1, true, 0, 10, 0⟩], none⟩ (some 1)).sessionVal = some 1 ∧
    (runRequest 2
      ⟨(runRequest 2 ⟨[⟨1, true, 0, 10, 0⟩], none⟩ (some 1)).db,
       (runRequest 2 ⟨[⟨1, true, 0, 10, 0⟩], none⟩ (some 1)).sessionVal⟩
      (some 1)).is_visitor = true ∧
    (runRequest 2
      ⟨(runRequest 2 ⟨[⟨1, true, 0, 10, 0⟩], none⟩ (some 1)).db,
       (runRequest 2 ⟨[⟨1, true, 0, 10, 0⟩], none⟩ (some 1)).sessionVal⟩
      (some 1)).sessionVal =
      (runRequest 2 ⟨[⟨1, true, 0, 10, 0⟩], none⟩ (some 1)).sessionVal ∧
    (runRequest 2
      ⟨(runRequest 2
          ⟨(runRequest 2 ⟨[⟨1, true, 0, 10, 0⟩], none⟩ (some 1)).db,
           (runRequest 2 ⟨[⟨1, true, 0, 10, 0⟩], none⟩ (some 1)).sessionVal⟩
          (some 1)).db,
       (runRequest 2
          ⟨(runRequest 2 ⟨[⟨1, true, 0, 10, 0⟩], none⟩ (some 1)).db,
           (runRequest 2 ⟨[⟨1, true, 0, 10, 0⟩], none⟩ (some 1)).sessionVal⟩
          (some 1)).sessionVal⟩
      none).is_visitor = true ∧
    (runRequest 2
      ⟨(runRequest 2
          ⟨(runRequest 2 ⟨[⟨1, true, 0, 10, 0⟩], none⟩ (some 1)).db,
           (runRequest 2 ⟨[⟨1, true, 0, 10, 0⟩], none⟩ (some 1)).sessionVal⟩
          (some 1)).db,
       (runRequest 2
          ⟨(runRequest 2 ⟨[⟨1, true, 0, 10, 0⟩], none⟩ (some 1)).db,
           (runRequest 2 ⟨[⟨1, true, 0, 10, 0⟩], none⟩ (some 1)).sessionVal⟩
          (some 1)).sessionVal⟩
      none).visitor = some ⟨1, true, 0 + 3, 10, 0⟩) :=
  ⟨by decide, by decide,
    c3_session_roundtrip_amended 2 [⟨1, true, 0, 10, 0⟩] ⟨1, true, 0, 10, 0⟩
      (by decide) rfl (by decide) (by decide)⟩

/-! ## Stage lemmas for granting and deactivation -/

lemma dbGetActive_is_active {db : List Visitor} {u : Nat} {v : Visitor}
    (h : dbGetActive db u = some v) : v.is_active = true := by
  have := List.find?_some h
  simp at this
  exact this.2

lemma dbGet_mem {db : List Visitor} {u : Nat} {v : Visitor}
    (h : dbGet db u = some v) : v ∈ db :=
  List.mem_of_find?_eq_some h

lemma dbGetActive_mem {db : List Visitor} {u : Nat} {v : Visitor}
    (h : dbGetActive db u = some v) : v ∈ db :=
  List.mem_of_find?_eq_some h

lemma pu_dbSave {db : List Visitor} {u : Nat} {w : Visitor}
    (h : ∀ v ∈ db, v.uuid = u → v.is_active = false)
    (hw : w.uuid = u → w.is_active = false) :
    ∀ v ∈ dbSave db w, v.uuid = u → v.is_active = false := by
  intro v hv hu
  rcases mem_dbSave hv with rfl | hmem
  · exact hw hu
  · exact h v hmem hu

lemma reqMw_flag_active (now : Nat) (s : ReqState)
    (h : (VisitorRequestMiddleware now s).is_visitor = true) :
    ∃ v, (VisitorRequestMiddleware now s).visitor = some v ∧
      v.is_active = true := by
  unfold VisitorRequestMiddleware at h ⊢
  cases htok : s.token with
  | none => simp [htok] at h
  | some u =>
    cases hget : dbGet s.db u with
    | none => simp [htok, hget] at h
    | some v =>
      cases hval : v.is_valid now with
      | false => simp [htok, hget, Visitor.validate, hval] at h
      | true =>
        refine ⟨v, ?_, ?_⟩
        · simp [htok, hget, Visitor.validate, hval]
        · unfold Visitor.is_valid at hval
          exact (Bool.and_eq_true _ _).mp hval |>.1

lemma sessMw_flag_active (s : ReqState)
    (hs : s.is_visitor = true → ∃ v, s.visitor = some v ∧ v.is_active = true)
    (h : (VisitorSessionMiddleware s).is_visitor = true) :
    ∃ v, (VisitorSessionMiddleware s).visitor = some v ∧
      v.is_active = true := by
  unfold VisitorSessionMiddleware at h ⊢
  cases hvis : s.visitor with
  | some v =>
    simp [hvis, stash_visitor_uuid] at h ⊢
    obtain ⟨v2, hv2, hact⟩ := hs h
    rw [hvis] at hv2
    exact Option.some.inj hv2 ▸ hact
  | none =>
    cases hsv : get_visitor_uuid s with
    | none =>
      simp [hvis, hsv] at h ⊢
      obtain ⟨v2, hv2, hact⟩ := hs h
      rw [hvis] at hv2
      exact absurd hv2 (by simp)
    | some u =>
      cases hga : dbGetActive s.db u with
      | none =>
        simp [hvis, hsv, hga, clear_visitor_uuid] at h
        obtain ⟨v2, hv2, hact⟩ := hs h
        rw [hvis] at hv2
        exact absurd hv2 (by simp)
      | some v =>
        refine ⟨v, ?_, dbGetActive_is_active hga⟩
        simp [hvis, hsv, hga]

lemma countMw_flag_active (s : ReqState)
    (hs : s.is_visitor = true → ∃ v, s.visitor = some v ∧ v.is_active = true)
    (h : (VisitorCountMiddleware s).is_visitor = true) :
    ∃ v, (VisitorCountMiddleware s).visitor = some v ∧
      v.is_active = true := by
  unfold VisitorCountMiddleware at h ⊢
  cases hvis : s.visitor with
  | none =>
    simp [hvis] at h ⊢
    obtain ⟨v2, hv2, hact⟩ := hs h
    rw [hvis] at hv2
    exact absurd hv2 (by simp)
  | some v =>
    by_cases htrip : v.max_usages_allowed < v.usage_count + 1
    · simp [hvis, htrip] at h
    · simp [hvis, htrip] at h ⊢
      obtain ⟨v2, hv2, hact⟩ := hs h
      rw [hvis] at hv2
      obtain rfl := Option.some.inj hv2
      exact hact

lemma reqMw_inactive_frozen (now u : Nat) (s : ReqState)
    (h : ∀ v ∈ s.db, v.uuid = u → v.is_active = false) :
    (∀ v ∈ (VisitorRequestMiddleware now s).db, v.uuid = u →
      v.is_active = false) ∧
    (∀ v, (VisitorRequestMiddleware now s).visitor = some v →
      v.uuid ≠ u) := by
  cases htok : s.token with
  | none =>
    have e : VisitorRequestMiddleware now s =
        { s with
          visitor := none,
          is_visitor := false } := by
      simp [VisitorRequestMiddleware, htok]
    rw [e]
    exact ⟨h, by simp⟩
  | some t =>
    cases hget : dbGet s.db t with
    | none =>
      have e : VisitorRequestMiddleware now s =
          { s with
            visitor := none,
            is_visitor := false } := by
        simp [VisitorRequestMiddleware, htok, hget]
      rw [e]
      exact ⟨h, by simp⟩
    | some v =>
      cases hval : v.is_valid now with
      | true =>
        have e : VisitorRequestMiddleware now s =
            { s with
              visitor := some v,
              is_visitor := true } := by
          simp [VisitorRequestMiddleware, htok, hget, Visitor.validate, hval]
        rw [e]
        refine ⟨h, ?_⟩
        intro v2 hv2 hu
        obtain rfl := Option.some.inj hv2
        have hactive : v.is_active = true := by
          unfold Visitor.is_valid at hval
          exact (Bool.and_eq_true _ _).mp hval |>.1
        have hfalse := h v (dbGet_mem hget) hu
        rw [hfalse] at hactive
        exact Bool.false_ne_true hactive
      | false =>
        have e : VisitorRequestMiddleware now s =
            { s with
              db := dbSave s.db v.deactivate,
              visitor := none,
              is_visitor := false } := by
          simp [VisitorRequestMiddleware, htok, hget, Visitor.validate, hval]
        rw [e]
        exact ⟨pu_dbSave h (fun _ => rfl), by simp⟩

lemma sessMw_inactive_frozen (u : Nat) (s : ReqState)
    (hdb : ∀ v ∈ s.db, v.uuid = u → v.is_active = false)
    (hvis : ∀ v, s.visitor = some v → v.uuid ≠ u) :
    (VisitorSessionMiddleware s).db = s.db ∧
    (∀ v, (VisitorSessionMiddleware s).visitor = some v → v.uuid ≠ u) := by
  cases hv : s.visitor with
  | some v =>
    have e : VisitorSessionMiddleware s = stash_visitor_uuid s v.uuid := by
      simp [VisitorSessionMiddleware, hv]
    rw [e]
    refine ⟨rfl, ?_⟩
    intro v2 hv2
    rw [show (stash_visitor_uuid s v.uuid).visitor = s.visitor from rfl] at hv2
    exact hvis v2 hv2
  | none =>
    cases hsv : get_visitor_uuid s with
    | none =>
      have e : VisitorSessionMiddleware s = s := by
        simp [VisitorSessionMiddleware, hv, hsv]
      rw [e]
      exact ⟨rfl, hvis⟩
    | some t =>
      cases hga : dbGetActive s.db t with
      | none =>
        have e : VisitorSessionMiddleware s = clear_visitor_uuid s := by
          simp [VisitorSessionMiddleware, hv, hsv, hga]
        rw [e]
        refine ⟨rfl, ?_⟩
        intro v2 hv2
        rw [show (clear_visitor_uuid s).visitor = s.visitor from rfl] at hv2
        exact hvis v2 hv2
      | some v =>
        have e : VisitorSessionMiddleware s =
            { s with
              visitor := some v,
              is_visitor := true } := by
          simp [VisitorSessionMiddleware, hv, hsv, hga]
        rw [e]
        refine ⟨rfl, ?_⟩
        intro v2 hv2 hu
        obtain rfl := Option.some.inj hv2
        have hactive := dbGetActive_is_active hga
        have hfalse := hdb v (dbGetActive_mem hga) hu
        rw [hfalse] at hactive
        exact Bool.false_ne_true hactive

lemma countMw_inactive_frozen (u : Nat) (s : ReqState)
    (hdb : ∀ v ∈ s.db, v.uuid = u → v.is_active = false)
    (hvis : ∀ v, s.visitor = some v → v.uuid ≠ u) :
    (∀ v ∈ (VisitorCountMiddleware s).db, v.uuid = u →
      v.is_active = false) ∧
    (∀ v, (VisitorCountMiddleware s).visitor = some v → v.uuid ≠ u) := by
  cases hv : s.visitor with
  | none =>
    have e : VisitorCountMiddleware s = s := by
      simp [VisitorCountMiddleware, hv]
    rw [e]
    exact ⟨hdb, hvis⟩
  | some v =>
    have hvu : v.uuid ≠ u := hvis v hv
    by_cases htrip : v.max_usages_allowed < v.usage_count + 1
    · have e : VisitorCountMiddleware s =
          { s with
            db := dbSave
              (dbSave s.db { v with usage_count := v.usage_count + 1 })
              { v with
                usage_count := v.usage_count + 1,
                is_active := false },
            visitor := some
              { v with
                usage_count := v.usage_count + 1,
                is_active := false },
            is_visitor := false } := by
        simp [VisitorCountMiddleware, hv, htrip]
      rw [e]
      refine ⟨pu_dbSave (pu_dbSave hdb (fun hh => absurd hh hvu))
        (fun _ => rfl), ?_⟩
      intro v2 hv2
      obtain rfl := Option.some.inj hv2
      exact hvu
    · have e : VisitorCountMiddleware s =
          { s with
            db := dbSave s.db { v with usage_count := v.usage_count + 1 },
            visitor := some { v with usage_count := v.usage_count + 1 } } := by
        simp [VisitorCountMiddleware, hv, htrip]
      rw [e]
      refine ⟨pu_dbSave hdb (fun hh => absurd hh hvu), ?_⟩
      intro v2 hv2
      obtain rfl := Option.some.inj hv2
      exact hvu

/-- C6: deactivation is terminal. If every stored row for identifier
`u` has `is_active = false`, then after any request (any token, any
session, any clock) every stored row for `u` still has
`is_active = false`, and the request-scoped context never references a
visitor with that identifier — in particular that visitor is never
granted the visitor flag. -/
theorem c6_deactivation_terminal (now u : Nat) (w : World)
    (tok : Option Nat)
    (h : ∀ v ∈ w.db, v.uuid = u → v.is_active = false) :
    (∀ v ∈ (runRequest now w tok).db, v.uuid = u → v.is_active = false) ∧
    (∀ v, (runRequest now w tok).visitor = some v → v.uuid ≠ u) := by
  unfold runRequest
  have h1 := reqMw_inactive_frozen now u (mkReq w tok) h
  have h2 := sessMw_inactive_frozen u
    (VisitorRequestMiddleware now (mkReq w tok)) h1.1 h1.2
  have h2db : ∀ v ∈ (VisitorSessionMiddleware
      (VisitorRequestMiddleware now (mkReq w tok))).db,
      v.uuid = u → v.is_active = false := by
    rw [h2.1]
    exact h1.1
  exact countMw_inactive_frozen u
    (VisitorSessionMiddleware (VisitorRequestMiddleware now (mkReq w tok)))
    h2db h2.2

/-- Witness for C6: a deactivated visitor presented via token with its
identifier also in the session. -/
theorem c6_witness :
    (∀ v ∈ [(⟨1, false, 11, 10, 0⟩ : Visitor)], v.uuid = 1 →
      v.is_active = false) ∧
    ((∀ v ∈ (runRequest 0 ⟨[⟨1, false, 11, 10, 0⟩], some 1⟩
        (some 1)).db, v.uuid = 1 → v.is_active = false) ∧
    (∀ v, (runRequest 0 ⟨[⟨1, false, 11, 10, 0⟩], some 1⟩
        (some 1)).visitor = some v → v.uuid ≠ 1)) :=
  ⟨by decide,
    c6_deactivation_terminal 0 1 ⟨[⟨1, false, 11, 10, 0⟩], some 1⟩
      (some 1) (by decide)⟩

/-- Counterexample to C4 as stated: the visitor `⟨1, true, 0, 10, 0⟩`
is expired at time 1000 (its validity predicate is false), yet a
request with no token whose session holds its identifier ends with the
visitor flag true and the context referencing that visitor — the
session path does not re-check expiry. -/
theorem c4_counterexample :
    Visitor.is_valid ⟨1, true, 0, 10, 0⟩ 1000 = false ∧
    VISITOR_TOKEN_EXPIRY < 1000 - 0 ∧
    (runRequest 1000 ⟨[⟨1, true, 0, 10, 0⟩], some 1⟩ none).is_visitor =
      true ∧
    (runRequest 1000 ⟨[⟨1, true, 0, 10, 0⟩], some 1⟩ none).visitor =
      some ⟨1, true, 1, 10, 0⟩ := by
  decide

/-- C4 (amended): the full validity predicate is re-evaluated on every
request on the token path — a token resolving to a visitor that is
currently invalid is never granted there — and every path that grants
the visitor flag re-checks `is_active`, so no request ends flagged with
an inactive context visitor; only the expiry half of the predicate is
not re-checked on the session path. -/
theorem c4_validity_recheck_amended (now : Nat) (w : World)
    (tok : Option Nat) (s : ReqState) (u : Nat) (v : Visitor)
    (htok : s.token = some u)
    (hget : dbGet s.db u = some v)
    (hinv : v.is_valid now = false) :
    ((runRequest now w tok).is_visitor = true →
      ∃ vv, (runRequest now w tok).visitor = some vv ∧
        vv.is_active = true) ∧
    (VisitorRequestMiddleware now s).is_visitor = false ∧
    (VisitorRequestMiddleware now s).visitor = none := by
  refine ⟨?_, ?_, ?_⟩
  · intro h
    unfold runRequest at h ⊢
    exact countMw_flag_active _
      (fun h2 => sessMw_flag_active _
        (fun h3 => reqMw_flag_active now _ h3) h2) h
  · simp [VisitorRequestMiddleware, htok, hget, Visitor.validate, hinv]
  · simp [VisitorRequestMiddleware, htok, hget, Visitor.validate, hinv]

/-- Witness for C4 (amended): a granting session request for an active
visitor alongside a token request for an expired one. -/
theorem c4_witness :
    (⟨some 2, none, [⟨2, true, 0, 10, 0⟩], none, false⟩ :
      ReqState).token = some 2 ∧
    dbGet [(⟨2, true, 0, 10, 0⟩ : Visitor)] 2 = some ⟨2, true, 0, 10, 0⟩ ∧
    Visitor.is_valid ⟨2, true, 0, 10, 0⟩ 999 = false ∧
    (((runRequest 999 ⟨[⟨1, true, 0, 10, 0⟩], some 1⟩ none).is_visitor =
        true →
      ∃ vv, (runRequest 999 ⟨[⟨1, true, 0, 10, 0⟩], some 1⟩
          none).visitor = some vv ∧ vv.is_active = true) ∧
    (VisitorRequestMiddleware 999
      ⟨some 2, none, [⟨2, true, 0, 10, 0⟩], none, false⟩).is_visitor =
      false ∧
    (VisitorRequestMiddleware 999
      ⟨some 2, none, [⟨2, true, 0, 10, 0⟩], none, false⟩).visitor =
      none) :=
  ⟨rfl, by decide, by decide,
    c4_validity_recheck_amended 999 ⟨[⟨1, true, 0, 10, 0⟩], some 1⟩ none
      ⟨some 2, none, [⟨2, true, 0, 10, 0⟩], none, false⟩ 2
      ⟨2, true, 0, 10, 0⟩ rfl (by decide) (by decide)⟩
